import Mathlib

/-!
Shallow embedding of the SV-calling core of `dysgu/call_component.pyx`
(alignment-pair classifier, breakpoint consensus sweep, evidence aggregation
filter, soft-clip resolver, regional annotation swap), together with theorems
settling the frozen claims about it.

Conventions: Python ints are `Int` (counts sometimes `Nat`), Python floats are
`ℚ` (the values handled here are exact small rationals), Python truthiness on
0/1 flags is `Bool`, a raised exception is `Except.error`.
-/

namespace CallComponent

/-- `is_overlapping` from `map_set_utils` (the commented-out copy in
`call_component.pyx` documents it as `max(x1, y1) <= min(x2, y2)`). -/
def is_overlapping (x1 x2 y1 y2 : Int) : Bool :=
  decide (max x1 y1 ≤ min x2 y2)

/-- The classification workspace `AlignmentItem` of `call_component.pyx`.
Output fields carry the `__cinit__` defaults (`breakA = breakB = -1`,
precision flags 0, empty svtype/join_type, `query_gap = -1`). -/
structure AlignmentItem where
  chrA : Int := 0
  chrB : Int := 0
  priA : Bool := true
  priB : Bool := true
  rA : Int := 1
  rB : Int := 1
  posA : Int := 0
  endA : Int := 0
  posB : Int := 0
  endB : Int := 0
  strandA : Int := 3
  strandB : Int := 3
  left_clipA : Bool := false
  right_clipA : Bool := false
  left_clipB : Bool := false
  right_clipB : Bool := false
  a_qstart : Int := 0
  a_qend : Int := 0
  b_qstart : Int := 0
  b_qend : Int := 0
  read_overlaps_mate : Bool := false
  breakA_precise : Bool := false
  breakB_precise : Bool := false
  breakA : Int := -1
  breakB : Int := -1
  svtype : String := ""
  join_type : String := ""
  query_gap : Int := -1
deriving Repr, DecidableEq, Inhabited

/-- `two_primary`: both alignments primary, same chromosome. -/
def two_primary (v : AlignmentItem) : AlignmentItem :=
  if v.posA < v.posB ∨ (v.posA = v.posB ∧ v.endA < v.endB) then
    if v.strandA = 3 ∧ v.strandB = 5 then  -- DEL type
      { v with breakA := v.endA,
               breakA_precise := if v.right_clipA then true else v.breakA_precise,
               breakB := v.posB,
               breakB_precise := if v.left_clipB then true else v.breakB_precise,
               svtype := "DEL", join_type := "3to5" }
    else if v.strandA = 5 ∧ v.strandB = 3 then  -- DUP type
      { v with breakA := v.posA,
               breakA_precise := if v.left_clipA then true else v.breakA_precise,
               breakB := v.endB,
               breakB_precise := if v.right_clipB then true else v.breakB_precise,
               svtype := "DUP", join_type := "5to3" }
    else  -- INV type
      if v.strandA = 5 then
        if !(v.left_clipA || v.left_clipB) && (v.right_clipA || v.right_clipB) then
          { v with breakA := v.endA,
                   breakA_precise := if v.right_clipA then true else v.breakA_precise,
                   breakB := v.endB,
                   breakB_precise := if v.right_clipB then true else v.breakB_precise,
                   svtype := "INV", join_type := "3to3" }
        else
          { v with breakA := v.posA,
                   breakA_precise := if v.left_clipA then true else v.breakA_precise,
                   breakB := v.posB,
                   breakB_precise := if v.right_clipB then true else v.breakB_precise,
                   svtype := "INV", join_type := "5to5" }
      else  -- strand == 3
        if !(v.right_clipA || v.right_clipB) && (v.left_clipA || v.left_clipB) then
          -- only left clips
          if (v.posA < v.posB ∧ v.left_clipB) ∨ (v.posB < v.posA ∧ v.left_clipA) then
            -- guess right
            { v with breakA := v.endA,
                     breakA_precise := if v.right_clipA then true else v.breakA_precise,
                     breakB := v.endB,
                     breakB_precise := if v.right_clipB then true else v.breakB_precise,
                     svtype := "INV", join_type := "3to3" }
          else  -- guess left
            { v with breakA := v.posA,
                     breakA_precise := if v.left_clipA then true else v.breakA_precise,
                     breakB := v.posB,
                     breakB_precise := if v.left_clipB then true else v.breakB_precise,
                     svtype := "INV", join_type := "5to5" }
        else  -- either no clips or right clips
          { v with breakA := v.endA,
                   breakA_precise := if v.left_clipA then true else v.breakA_precise,
                   breakB := v.endB,
                   breakB_precise := if v.right_clipB then true else v.breakB_precise,
                   svtype := "INV", join_type := "3to3" }
  else  -- B < A
    if v.strandA = 5 ∧ v.strandB = 3 then  -- DEL type
      { v with breakA := v.posA,
               breakA_precise := if v.left_clipA then true else v.breakA_precise,
               breakB := v.endB,
               breakB_precise := if v.right_clipB then true else v.breakB_precise,
               svtype := "DEL", join_type := "3to5" }
    else if v.strandB = 5 ∧ v.strandA = 3 then  -- DUP type
      { v with breakA := v.endA,
               breakA_precise := if v.right_clipA then true else v.breakA_precise,
               breakB := v.posB,
               breakB_precise := if v.left_clipB then true else v.breakB_precise,
               svtype := "DUP", join_type := "5to3" }
    else if v.strandA = 5 then  -- INV type
      if !(v.left_clipA || v.left_clipB) && (v.right_clipA || v.right_clipB) then
        { v with breakA := v.endA,
                 breakA_precise := if v.right_clipA then true else v.breakA_precise,
                 breakB := v.endB,
                 breakB_precise := if v.right_clipB then true else v.breakB_precise,
                 svtype := "INV", join_type := "3to3" }
      else
        { v with breakA := v.posA,
                 breakA_precise := if v.left_clipA then true else v.breakA_precise,
                 breakB := v.posB,
                 breakB_precise := if v.right_clipB then true else v.breakB_precise,
                 svtype := "INV", join_type := "5to5" }
    else if v.strandA = 3 then
      if !(v.right_clipA || v.right_clipB) && (v.left_clipA || v.left_clipB) then
        { v with breakA := v.posA,
                 breakA_precise := if v.right_clipA then true else v.breakA_precise,
                 breakB := v.posB,
                 breakB_precise := if v.right_clipB then true else v.breakB_precise,
                 svtype := "INV", join_type := "5to5" }
      else
        { v with breakA := v.endA,
                 breakA_precise := if v.left_clipA then true else v.breakA_precise,
                 breakB := v.endB,
                 breakB_precise := if v.right_clipB then true else v.breakB_precise,
                 svtype := "INV", join_type := "3to3" }
    else v

/-- `same_read`: primary plus supplementary from the same physical read. -/
def same_read (v : AlignmentItem) : AlignmentItem :=
  if v.posA < v.posB ∨ (v.posA = v.posB ∧ v.endA ≤ v.endB) then  -- A is first
    if v.strandA = v.strandB then
      if is_overlapping v.posA v.endA v.posB v.endB then  -- Nested DUP
        let bA := if v.left_clipA then (v.posA, true)
                  else if v.right_clipA then (v.endA, true)
                  else (v.endA, v.breakA_precise)
        let bB := if v.left_clipB then (v.posB, true)
                  else if v.right_clipB then (v.endB, true)
                  else (v.endB, v.breakB_precise)
        -- gap on query bigger than gap on reference means insertion
        let query_gap := v.b_qstart - v.a_qend  -- as A is first
        let ref_gap := bB.1 - bA.1
        if ref_gap < query_gap then
          { v with breakA := bA.1, breakA_precise := bA.2, breakB := bB.1, breakB_precise := bB.2,
                   svtype := "INS", query_gap := query_gap, join_type := "5to3" }
        else
          { v with breakA := bA.1, breakA_precise := bA.2, breakB := bB.1, breakB_precise := bB.2,
                   svtype := "DUP", join_type := "5to3" }
      else if !v.left_clipA && !v.right_clipB then
        let bA := (v.endA, if v.right_clipA then true else v.breakA_precise)
        let bB := (v.posB, if v.left_clipB then true else v.breakB_precise)
        let query_gap := v.b_qstart - v.a_qend  -- as A is first
        let ref_gap := bB.1 - bA.1
        if ref_gap < query_gap then
          { v with breakA := bA.1, breakA_precise := bA.2, breakB := bB.1, breakB_precise := bB.2,
                   svtype := "INS", join_type := "3to5", query_gap := query_gap }
        else if v.read_overlaps_mate then
          { v with breakA := bA.1, breakA_precise := bA.2, breakB := bB.1, breakB_precise := bB.2,
                   svtype := "DUP", join_type := "5to3" }
        else
          { v with breakA := bA.1, breakA_precise := bA.2, breakB := bB.1, breakB_precise := bB.2,
                   svtype := "DEL", join_type := "3to5" }
      else if !v.right_clipA && !v.left_clipB then
        { v with breakA := v.posA,
                 breakA_precise := if v.left_clipA then true else v.breakA_precise,
                 breakB := v.endB,
                 breakB_precise := if v.right_clipB then true else v.breakB_precise,
                 svtype := "DUP", join_type := "5to3" }
      else if !v.left_clipA && !v.left_clipB then
        { v with breakA := v.endA,
                 breakA_precise := if v.right_clipA then true else v.breakA_precise,
                 breakB := v.endB,
                 breakB_precise := if v.right_clipB then true else v.breakB_precise,
                 svtype := "INV", join_type := "3to3" }
      else
        { v with breakA := v.posA,
                 breakA_precise := if v.left_clipA then true else v.breakA_precise,
                 breakB := v.posB,
                 breakB_precise := if v.left_clipB then true else v.breakB_precise,
                 svtype := "INV", join_type := "5to5" }
    else if v.strandA = 5 ∧ v.strandB = 3 then
      if !v.left_clipA && !v.left_clipB then  -- Break right
        { v with breakA := v.endA,
                 breakA_precise := if v.right_clipA then true else v.breakA_precise,
                 breakB := v.endB,
                 breakB_precise := if v.right_clipB then true else v.breakB_precise,
                 svtype := "INV", join_type := "3to3" }
      else if !v.right_clipA && !v.right_clipB then  -- Break left
        { v with breakA := v.posA,
                 breakA_precise := if v.left_clipA then true else v.breakA_precise,
                 breakB := v.posB,
                 breakB_precise := if v.left_clipB then true else v.breakB_precise,
                 svtype := "INV", join_type := "5to5" }
      else if is_overlapping v.posA v.endA v.posB v.endB then  -- Inverted duplication
        { v with breakA := v.posA,
                 breakA_precise := if v.left_clipA then true else v.breakA_precise,
                 breakB := v.endB,
                 breakB_precise := if v.right_clipB then true else v.breakB_precise,
                 svtype := "INV:DUP", join_type := "5to3" }
      else if v.right_clipA && v.left_clipB then
        { v with breakA := v.endA, breakB := v.posB, svtype := "INV", join_type := "3to5" }
      else
        { v with breakA := v.posA, breakB := v.endB, svtype := "INV", join_type := "5to3" }
    else  -- INV type
      if v.left_clipA && v.left_clipB then  -- Break left
        { v with breakA_precise := true, breakB_precise := true,
                 breakA := v.posA, breakB := v.posB, svtype := "INV", join_type := "5to5" }
      else if v.right_clipA && v.right_clipB then  -- Break right
        { v with breakA := v.endA, breakB := v.endB,
                 breakA_precise := true, breakB_precise := true,
                 svtype := "INV", join_type := "3to3" }
      else  -- Guess using pos only
        { v with breakA := v.posA, breakB := v.posB, svtype := "INV",
                 join_type := if v.strandA = 5 then "5to5" else "3to3" }
  else  -- B is first
    if v.strandA = v.strandB then
      if is_overlapping v.posA v.endA v.posB v.endB then  -- Nested DUP
        let bA := if v.left_clipA then (v.posA, true)
                  else if v.right_clipA then (v.endA, true)
                  else (v.endA, v.breakA_precise)
        let bB := if v.left_clipB then (v.posB, true)
                  else if v.right_clipB then (v.endB, true)
                  else (v.endB, v.breakB_precise)
        let query_gap := v.b_qend - v.a_qstart  -- as B is first
        let ref_gap := bB.1 - bA.1
        if ref_gap < query_gap then
          { v with breakA := bA.1, breakA_precise := bA.2, breakB := bB.1, breakB_precise := bB.2,
                   svtype := "INS", query_gap := query_gap, join_type := "5to3" }
        else
          { v with breakA := bA.1, breakA_precise := bA.2, breakB := bB.1, breakB_precise := bB.2,
                   svtype := "DUP", join_type := "5to3" }
      else if !v.left_clipB && !v.right_clipA then
        let query_gap := v.b_qstart - v.a_qend  -- as B is first
        let ref_gap := v.posA - v.endB
        if ref_gap < query_gap then
          { v with breakA := v.posA, breakB := v.endB,
                   breakA_precise := true, breakB_precise := true,
                   svtype := "INS", join_type := "3to5", query_gap := query_gap }
        else if v.read_overlaps_mate then
          { v with breakA := v.posA, breakB := v.endB,
                   breakA_precise := true, breakB_precise := true,
                   svtype := "DUP", join_type := "5to3" }
        else
          { v with breakA := v.posA, breakB := v.endB,
                   breakA_precise := true, breakB_precise := true,
                   svtype := "DEL", join_type := "3to5" }
      else if !v.right_clipB && !v.left_clipA then
        { v with breakA := v.endA, breakB := v.posB,
                 breakA_precise := true, breakB_precise := true,
                 svtype := "DUP", join_type := "5to3" }
      else
        { v with breakA := v.posA, breakB := v.posB, svtype := "BND",
                 join_type := toString v.strandA ++ "to" ++ toString v.strandB }
    else  -- INV type
      if v.left_clipA && v.left_clipB then  -- Break left
        { v with breakA_precise := true, breakB_precise := true,
                 breakA := v.posA, breakB := v.posB, svtype := "INV", join_type := "5to5" }
      else if v.right_clipA && v.right_clipB then  -- Break right
        { v with breakA_precise := true, breakB_precise := true,
                 breakA := v.endA, breakB := v.endB, svtype := "INV", join_type := "3to3" }
      else  -- Guess using pos only
        { v with breakA := v.posA, breakB := v.posB, svtype := "INV",
                 join_type := if v.strandA = 5 then "5to5" else "3to3" }

/-- `different_read`: primary plus supplementary from different physical reads. -/
def different_read (v : AlignmentItem) : AlignmentItem :=
  if v.posA < v.posB ∨ (v.posA = v.posB ∧ v.endA ≤ v.endB) then  -- A is first
    if v.strandA = 3 ∧ v.strandB = 5 then  -- DEL type, but reported as INS in the source
      { v with breakA := v.endA,
               breakA_precise := if v.right_clipA then true else v.breakA_precise,
               breakB := v.posB,
               breakB_precise := if v.left_clipB then true else v.breakB_precise,
               svtype := "INS", join_type := "3to5" }
    else if v.strandA = 5 ∧ v.strandB = 3 then  -- DUP type
      { v with breakA := v.posA,
               breakA_precise := if v.left_clipA then true else v.breakA_precise,
               breakB := v.endB,
               breakB_precise := if v.right_clipB then true else v.breakB_precise,
               svtype := "DUP", join_type := "5to3" }
    else if v.strandA = v.strandB then
      if is_overlapping v.posA v.endA v.posB v.endB then  -- Nested
        if v.strandA = 3 then  -- Both forward strand
          { v with breakA := v.endA,
                   breakA_precise := if v.right_clipA then true else v.breakA_precise,
                   breakB := v.endB,
                   breakB_precise := if v.right_clipB then true else v.breakB_precise,
                   svtype := "INV", join_type := "3to3" }
        else
          { v with breakA := v.posA,
                   breakA_precise := if v.left_clipA then true else v.breakA_precise,
                   breakB := v.posB,
                   breakB_precise := if v.left_clipB then true else v.breakB_precise,
                   svtype := "INV", join_type := "5to5" }
      else if !v.right_clipA && !v.right_clipB then
        { v with breakA := v.posA,
                 breakA_precise := if v.left_clipA then true else v.breakA_precise,
                 breakB := v.posB,
                 breakB_precise := if v.left_clipB then true else v.breakB_precise,
                 svtype := "INV", join_type := "5to5" }
      else if !v.left_clipA && !v.left_clipB then
        { v with breakA := v.endA,
                 breakA_precise := if v.right_clipA then true else v.breakA_precise,
                 breakB := v.endB,
                 breakB_precise := if v.right_clipB then true else v.breakB_precise,
                 svtype := "INV", join_type := "3to3" }
      else if v.right_clipA && v.left_clipB then
        { v with breakA := v.endA, breakA_precise := true,
                 breakB := v.posB, breakB_precise := true,
                 svtype := "INV:DUP", join_type := "5to3" }
      else
        { v with breakA := v.posA, breakA_precise := true,
                 breakB := v.endB, breakB_precise := true,
                 svtype := "INV:DUP", join_type := "3to5" }
    else v
  else  -- B is first
    if v.strandA = 5 ∧ v.strandB = 3 then  -- DEL type, but reported as INS in the source
      { v with breakA := v.posA,
               breakA_precise := if v.left_clipA then true else v.breakA_precise,
               breakB := v.endB,
               breakB_precise := if v.right_clipB then true else v.breakB_precise,
               svtype := "INS", join_type := "3to5" }
    else if v.strandA = 3 ∧ v.strandB = 5 then  -- DUP type
      { v with breakA := v.endA,
               breakA_precise := if v.right_clipA then true else v.breakA_precise,
               breakB := v.posB,
               breakB_precise := if v.left_clipB then true else v.breakB_precise,
               svtype := "DUP", join_type := "5to3" }
    else if v.strandA = v.strandB then  -- INV type
      if is_overlapping v.posA v.endA v.posB v.endB then  -- Nested DUP
        let bA := if v.left_clipA then (v.posA, true)
                  else if v.right_clipA then (v.endA, true)
                  else (v.endA, v.breakA_precise)
        let bB := if v.left_clipB then (v.posB, true)
                  else if v.right_clipB then (v.endB, true)
                  else (v.endB, v.breakB_precise)
        { v with breakA := bA.1, breakA_precise := bA.2, breakB := bB.1, breakB_precise := bB.2,
                 svtype := "DUP", join_type := "5to3" }
      else if v.right_clipA && v.left_clipB then
        { v with breakA := v.endA, breakB := v.posB,
                 breakA_precise := true, breakB_precise := true,
                 svtype := "DEL", join_type := "3to5" }
      else if v.left_clipA && v.right_clipB then
        { v with breakA := v.posA, breakB := v.endB,
                 breakA_precise := true, breakB_precise := true,
                 svtype := "DUP", join_type := "5to3" }
      else if !v.left_clipB && !v.left_clipA then
        { v with breakB := v.endB,
                 breakB_precise := if v.right_clipB then true else v.breakB_precise,
                 breakA := v.endA,
                 breakA_precise := if v.right_clipA then true else v.breakA_precise,
                 svtype := "INV", join_type := "3to3" }
      else if !v.right_clipB && !v.right_clipA then
        { v with breakB := v.posB,
                 breakB_precise := if v.left_clipB then true else v.breakB_precise,
                 breakA := v.posA,
                 breakA_precise := if v.left_clipA then true else v.breakA_precise,
                 svtype := "INV", join_type := "5to5" }
      else if v.strandA = 3 then
        { v with breakA := v.endA,
                 breakA_precise := if v.right_clipA then true else v.breakA_precise,
                 breakB := v.endB,
                 breakB_precise := if v.right_clipB then true else v.breakB_precise,
                 svtype := "INV", join_type := "3to3" }
      else
        { v with breakA := v.posA,
                 breakA_precise := if v.left_clipA then true else v.breakA_precise,
                 breakB := v.posB,
                 breakB_precise := if v.left_clipB then true else v.breakB_precise,
                 svtype := "INV", join_type := "5to5" }
    else v

/-- `translocation`: different chromosomes. -/
def translocation (v : AlignmentItem) : AlignmentItem :=
  let v := { v with svtype := "TRA" }
  let v :=
    if v.left_clipA then { v with breakA := v.posA, breakA_precise := true }
    else if v.right_clipA then { v with breakA := v.endA, breakA_precise := true }
    else { v with breakA := v.posA, breakA_precise := true }
  let v :=
    if v.left_clipB then { v with breakB := v.posB, breakB_precise := true }
    else if v.right_clipB then { v with breakB := v.endB, breakB_precise := true }
    else { v with breakB := v.posB, breakB_precise := true }
  { v with join_type := toString v.strandA ++ "to" ++ toString v.strandB }

/-- `classify_d`: regime dispatch of the alignment-pair classifier. -/
def classify_d (v0 : AlignmentItem) : AlignmentItem :=
  let v := { v0 with breakA_precise := false, breakB_precise := false }
  if v.chrA ≠ v.chrB then
    translocation v
  else  -- Intra-chromosomal
    if v.priA && v.priB then
      two_primary v
    else if v.rA = v.rB then
      same_read v
    else
      different_read v

/-! Numeric helpers shared by the consensus step: Python `sorted` (stable,
lexicographic on tuples), `int()` truncation of a float, `np.median`,
`np.percentile(..., [97.5])` with linear interpolation, and `np.mean`. -/

/-- Stable insertion of `x` after the existing elements `y` with `le y x`. -/
def ordIns {α : Type} (le : α → α → Bool) (x : α) : List α → List α
  | [] => [x]
  | y :: ys => if le x y then x :: y :: ys else y :: ordIns le x ys

/-- Stable insertion sort; with a reflexive total `le` this matches Python
`sorted` (earlier elements stay before equal later ones). -/
def insSort {α : Type} (le : α → α → Bool) : List α → List α
  | [] => []
  | x :: xs => ordIns le x (insSort le xs)

/-- Lexicographic order on the `(position, delta, precise)` event tuples. -/
def evLe (a b : Int × Int × Int) : Bool :=
  a.1 < b.1 || (a.1 == b.1 && (a.2.1 < b.2.1 || (a.2.1 == b.2.1 && a.2.2 ≤ b.2.2)))

/-- Reversed lexicographic order, for `sorted(..., reverse=True)`. -/
def evGe (a b : Int × Int × Int) : Bool := evLe b a

/-- Floor of a rational, computed from its reduced fraction. -/
def ratFloor (q : ℚ) : Int := Int.fdiv q.num q.den

/-- Python `int()` applied to a float: truncation toward zero (numerator
divided by denominator with `Int.div`, which rounds toward zero). -/
def truncQ (q : ℚ) : Int := q.num / (q.den : Int)

/-- `np.median` on a list of integers (0 on the empty list, where numpy
would give nan). -/
def medianQ (l : List Int) : ℚ :=
  let s := insSort (fun a b => decide (a ≤ b)) l
  let n := s.length
  if n = 0 then 0
  else if n % 2 = 1 then ((s.getD (n / 2) 0 : Int) : ℚ)
  else (((s.getD (n / 2 - 1) 0 : Int) : ℚ) + ((s.getD (n / 2) 0 : Int) : ℚ)) / 2

/-- `np.percentile(l, [97.5])` on a list of integers: linear interpolation at
rank `(n - 1) * 0.975` of the sorted values (0 on the empty list). -/
def percentile975 (l : List Int) : ℚ :=
  let s := insSort (fun a b => decide (a ≤ b)) l
  let n := s.length
  if n = 0 then 0
  else
    let rank : ℚ := (39 / 40 : ℚ) * ((n : ℚ) - 1)
    let lo : Int := ratFloor rank
    let frac : ℚ := rank - (lo : ℚ)
    let loVal : ℚ := ((s.getD lo.toNat 0 : Int) : ℚ)
    let hiVal : ℚ := ((s.getD (lo.toNat + 1) 0 : Int) : ℚ)
    if frac = 0 then loVal else loVal + frac * (hiVal - loVal)

/-- `np.mean` on a list of rationals (0 on the empty list). -/
def meanL (l : List ℚ) : ℚ := (l.foldl (· + ·) 0) / (l.length : ℚ)

/-- `np.mean` on a list of integers. -/
def meanZ (l : List Int) : ℚ := meanL (l.map (fun x => (x : ℚ)))

/-! The interval sweep `break_ops` and the consensus `make_call`. -/

/-- Result triple of `break_ops`. -/
structure BreakOpsResult where
  break_point : Int
  cipos95 : Int
  is_precise : Bool
deriving Repr, DecidableEq, Inhabited

/-- The event list built by `break_ops`: `(i, 1, 0)` and `(i + limit, -1, 0)`
for every approximate position, `(i, 1, 1)` and a single-base close event for
every precise position. -/
def bo_events (positions precise : List Int) (limit : Int) : List (Int × Int × Int) :=
  let ops := positions.foldr (fun i acc => (i, 1, 0) :: (i + limit, -1, 0) :: acc) []
  let v : Int := if limit < 0 then -1 else 1
  ops ++ precise.foldr (fun i acc =>
      (i, 1, 1) :: (if v = -1 then (i + v + 1, -1, 1) else (i + v, -1, 1)) :: acc) []

/-- `sorted(ops, reverse=limit < 0)`. -/
def bo_sorted (positions precise : List Int) (limit : Int) : List (Int × Int × Int) :=
  if limit < 0 then insSort evGe (bo_events positions precise limit)
  else insSort evLe (bo_events positions precise limit)

/-- The sweep: running sum of deltas, keeping the first event where the
running sum reaches its strict maximum (initial index 0, as in the source);
returns its position and precise tag. -/
def scanMax (ops : List (Int × Int × Int)) : Int × Bool :=
  let init : Int × Int × (Int × Int × Int) := (0, 0, ops.headD (0, 0, 0))
  let fin := ops.foldl (fun st item =>
      let cum := st.1 + item.2.1
      if cum > st.2.1 then (cum, cum, item) else (cum, st.2.1, st.2.2)) init
  ((fin.2.2).1, (fin.2.2).2.2 == 1)

/-- `break_ops(positions, precise, limit, median_pos)`. -/
def break_ops (positions precise : List Int) (limit : Int) (median_pos : ℚ) :
    BreakOpsResult :=
  let sm := scanMax (bo_sorted positions precise limit)
  let bp := sm.1
  -- if the sweep maximum was not a precise event but a precise observation
  -- sits exactly at the chosen position, the result is still precise
  let ip := if sm.2 = false ∧ precise.contains bp then true else sm.2
  { break_point := bp
    cipos95 :=
      if ip = true ∧ precise.length > 1 then 0
      else truncQ |((truncQ (percentile975 positions) : ℚ)) - median_pos|
    is_precise := ip }

/-- The per-side sweep dispatch of `make_call`, returning
`(main_A_break, cipos95A, preciseA, main_B_break, cipos95B, preciseB)`.
In the `DEL` branch with `median_A ≥ median_B` the source assigns the flag of
the side-B sweep to `preciseA` and the flag of the side-A sweep to `preciseB`
(lines 1632 and 1633 of `call_component.pyx`); this is reproduced verbatim. -/
def sweepResults (positionsA positionsB breakA_precise breakB_precise : List Int)
    (svtype jointype : String) (limit : Int) :
    Int × Int × Bool × Int × Int × Bool :=
  let median_A := medianQ positionsA
  let median_B := medianQ positionsB
  if svtype = "DEL" then
    if median_A < median_B then
      let a := break_ops positionsA breakA_precise limit median_A
      let b := break_ops positionsB breakB_precise (-limit) median_B
      (a.break_point, a.cipos95, a.is_precise, b.break_point, b.cipos95, b.is_precise)
    else
      let b := break_ops positionsB breakB_precise limit median_B
      let a := break_ops positionsA breakA_precise (-limit) median_A
      (a.break_point, a.cipos95, b.is_precise, b.break_point, b.cipos95, a.is_precise)
  else if svtype = "DUP" then
    if median_A < median_B then
      let a := break_ops positionsA breakA_precise (-limit) median_A
      let b := break_ops positionsB breakB_precise limit median_B
      (a.break_point, a.cipos95, a.is_precise, b.break_point, b.cipos95, b.is_precise)
    else
      let a := break_ops positionsA breakA_precise limit median_A
      let b := break_ops positionsB breakB_precise (-limit) median_B
      (a.break_point, a.cipos95, a.is_precise, b.break_point, b.cipos95, b.is_precise)
  else if jointype = "3to3" then
    let a := break_ops positionsA breakA_precise limit median_A
    let b := break_ops positionsB breakB_precise limit median_B
    (a.break_point, a.cipos95, a.is_precise, b.break_point, b.cipos95, b.is_precise)
  else if jointype = "5to5" then
    let a := break_ops positionsA breakA_precise (-limit) median_A
    let b := break_ops positionsB breakB_precise (-limit) median_B
    (a.break_point, a.cipos95, a.is_precise, b.break_point, b.cipos95, b.is_precise)
  else if jointype = "3to5" then
    let a := break_ops positionsA breakA_precise limit median_A
    let b := break_ops positionsB breakB_precise (-limit) median_B
    (a.break_point, a.cipos95, a.is_precise, b.break_point, b.cipos95, b.is_precise)
  else  -- 5to3
    let a := break_ops positionsA breakA_precise (-limit) median_A
    let b := break_ops positionsB breakB_precise limit median_B
    (a.break_point, a.cipos95, a.is_precise, b.break_point, b.cipos95, b.is_precise)

/-- `infer_unmapped_insertion_break_point`: refine an insertion without
recorded query gaps; returns
`(main_A_break, cipos95A, preciseA, main_B_break, cipos95B, preciseB, svlen)`. -/
def infer_unmapped_insertion_break_point (main_A_break cipos95A : Int) (preciseA : Bool)
    (main_B_break cipos95B : Int) (preciseB : Bool) :
    Int × Int × Bool × Int × Int × Bool × Int :=
  let svlen : Int := 0
  let st :=
    if ¬preciseA ∧ ¬preciseB then
      -- make break at mid point
      let sep := |main_B_break - main_A_break|
      let svlen := min sep (max cipos95A cipos95B)
      let mid := truncQ ((sep : ℚ) / 2) + min main_A_break main_B_break
      (mid, mid + 1, svlen)
    else (main_A_break, main_B_break, svlen)
  let st :=
    if ¬preciseA ∧ preciseB then
      ((if st.1 < st.2.1 then st.2.1 - 1 else st.2.1 + 1), st.2.1, truncQ ((cipos95A : ℚ) / 2))
    else st
  let st :=
    if ¬preciseB ∧ preciseA then
      (st.1, (if st.1 < st.2.1 then st.1 + 1 else st.1 - 1), truncQ ((cipos95B : ℚ) / 2))
    else st
  (st.1, cipos95A, preciseA, st.2.1, cipos95B, preciseB, st.2.2)

/-- The consensus output record of `make_call`. -/
structure CallInfo where
  svtype : String
  join_type : String
  chrA : Int
  chrB : Int
  cipos95A : Int
  cipos95B : Int
  posA : Int
  posB : Int
  preciseA : Bool
  preciseB : Bool
  svlen : Int
deriving Repr, DecidableEq, Inhabited

/-- `make_call(informative, breakA_precise, breakB_precise, svtype, jointype,
insert_size, insert_stdev)`. -/
def make_call (informative : List AlignmentItem) (breakA_precise breakB_precise : List Int)
    (svtype jointype : String) (insert_size insert_stdev : Int) : CallInfo :=
  let limit := insert_size + insert_stdev
  let positionsA := informative.map (fun i => i.breakA)
  let positionsB := informative.map (fun i => i.breakB)
  let res := sweepResults positionsA positionsB breakA_precise breakB_precise svtype jointype limit
  let mA := res.1
  let cA := res.2.1
  let pA := res.2.2.1
  let mB := res.2.2.2.1
  let cB := res.2.2.2.2.1
  let pB := res.2.2.2.2.2
  let fst := informative.headD default
  if fst.chrA = fst.chrB then
    if svtype = "INS" then  -- use inferred query gap to call svlen
      let q_gaps := (informative.filter (fun i => i.query_gap ≠ -1)).map (fun i => i.query_gap)
      if q_gaps.length > 0 then
        { svtype := svtype, join_type := jointype, chrA := fst.chrA, chrB := fst.chrB,
          cipos95A := cA, cipos95B := cB, posA := mA, posB := mB,
          preciseA := pA, preciseB := pB, svlen := truncQ (meanZ q_gaps) }
      else
        let t := infer_unmapped_insertion_break_point mA cA pA mB cB pB
        { svtype := svtype, join_type := jointype, chrA := fst.chrA, chrB := fst.chrB,
          cipos95A := t.2.1, cipos95B := t.2.2.2.2.1, posA := t.1, posB := t.2.2.2.1,
          preciseA := t.2.2.1, preciseB := t.2.2.2.2.2.1, svlen := t.2.2.2.2.2.2 }
    else
      { svtype := svtype, join_type := jointype, chrA := fst.chrA, chrB := fst.chrB,
        cipos95A := cA, cipos95B := cB, posA := mA, posB := mB,
        preciseA := pA, preciseB := pB, svlen := |mB - mA| }
  else
    { svtype := svtype, join_type := jointype, chrA := fst.chrA, chrB := fst.chrB,
      cipos95A := cA, cipos95B := cB, posA := mA, posB := mB,
      preciseA := pA, preciseB := pB, svlen := 0 }

/-! Support-threshold filters of the cluster orchestrator. -/

/-- The low-support filter of `single` (lines 764 to 769 of
`call_component.pyx`), as a predicate on the aggregate counts it reads:
`true` means the cluster is dropped (the function returns the empty dict). -/
def single_drops (pe supp sc spanning min_support : Nat) (svtype : String) : Bool :=
  if pe + supp + 2 * spanning < min_support then
    if svtype = "INS" then
      !(decide (supp + spanning > 0 ∧ supp + sc + spanning > min_support))
    else true
  else false

/-- The low-support filter of `one_edge` (line 1955 of `call_component.pyx`):
`true` means the edge is dropped. `n_spanning` is `len(spanning_alignments)`,
which also equals the aggregate `spanning` count. -/
def one_edge_drops (pe supp n_spanning min_support : Nat) : Bool :=
  pe + supp + n_spanning < min_support

/-! The soft-clip resolver `mask_soft_clips`. -/

/-- The clip-resolution part of `mask_soft_clips`, operating on the four
clip flags read off the cigar ends. -/
def msc_resolve (aflag bflag : Nat) (a_ct b_ct : List (Int × Int))
    (left_clipA right_clipA left_clipB right_clipB : Bool) :
    Bool × Bool × Bool × Bool :=
  if aflag &&& 64 == bflag &&& 64 then  -- Same read
    if (left_clipB && right_clipB) || (left_clipA && right_clipA) then
      -- one read has more than one soft-clip: use template starts
      let a_template_start : Int :=
        if aflag &&& 16 ≠ 0 then  -- A is reverse, convert to forward
          (if (a_ct.getLastD (0, 0)).1 ≠ 0 then (a_ct.getLastD (0, 0)).2 else 0)
        else
          (if (a_ct.headD (0, 0)).1 ≠ 0 then (a_ct.headD (0, 0)).2 else 0)
      let b_template_start : Int :=
        if bflag &&& 16 ≠ 0 then
          (if (b_ct.getLastD (0, 0)).1 ≠ 0 then (b_ct.getLastD (0, 0)).2 else 0)
        else
          (if (b_ct.headD (0, 0)).1 ≠ 0 then (b_ct.headD (0, 0)).2 else 0)
      let bPair :=
        if left_clipB && right_clipB then  -- choose one soft-clip for B
          if b_template_start < a_template_start then
            (if bflag &&& 16 = 0 then (false, right_clipB) else (left_clipB, false))
          else
            (if bflag &&& 16 = 0 then (left_clipB, false) else (false, right_clipB))
        else (left_clipB, right_clipB)
      let aPair :=
        if left_clipA && right_clipA then  -- choose one soft-clip for A
          if a_template_start < b_template_start then
            (if aflag &&& 16 = 0 then (false, right_clipA) else (left_clipA, false))
          else
            (if aflag &&& 16 = 0 then (left_clipA, false) else (false, right_clipA))
        else (left_clipA, right_clipA)
      (aPair.1, aPair.2, bPair.1, bPair.2)
    else (left_clipA, right_clipA, left_clipB, right_clipB)
  else  -- Different reads: keep the longest of the two soft-clips
    let bPair :=
      if left_clipB && right_clipB then
        if (b_ct.headD (0, 0)).2 > (b_ct.getLastD (0, 0)).2 then (left_clipB, false)
        else (false, right_clipB)
      else (left_clipB, right_clipB)
    let aPair :=
      if left_clipA && right_clipA then
        if (a_ct.headD (0, 0)).2 > (a_ct.getLastD (0, 0)).2 then (left_clipA, false)
        else (false, right_clipA)
      else (left_clipA, right_clipA)
    (aPair.1, aPair.2, bPair.1, bPair.2)

/-- `mask_soft_clips(aflag, bflag, a_ct, b_ct)`: returns
`(left_clipA, right_clipA, left_clipB, right_clipB)`. -/
def mask_soft_clips (aflag bflag : Nat) (a_ct b_ct : List (Int × Int)) :
    Bool × Bool × Bool × Bool :=
  let left_clipA := (a_ct.headD (0, 0)).1 == 4 || (a_ct.headD (0, 0)).1 == 5
  let right_clipA := (a_ct.getLastD (0, 0)).1 == 4 || (a_ct.getLastD (0, 0)).1 == 5
  let left_clipB := (b_ct.headD (0, 0)).1 == 4 || (b_ct.headD (0, 0)).1 == 5
  let right_clipB := (b_ct.getLastD (0, 0)).1 == 4 || (b_ct.getLastD (0, 0)).1 == 5
  msc_resolve aflag bflag a_ct b_ct left_clipA right_clipA left_clipB right_clipB

/-! The regional-annotation step `get_raw_coverage_information`: the A/B label
swap and the cross-chromosome svlen sentinel. The region/depth lookups that
decide the swap and the `kind` label live in external collaborators, so the
swap decision enters as an input here. -/

/-- The fields of a finished call record touched or read by the
regional-annotation step. -/
structure CallRecord where
  chrA : Int
  chrB : Int
  posA : Int
  posB : Int
  cipos95A : Int
  cipos95B : Int
  preciseA : Bool
  preciseB : Bool
  svtype : String
  join_type : String
  svlen : Int
  contig : Option String
  contig2 : Option String
  pe : Int
  supp : Int
  spanning : Int
deriving Repr, DecidableEq

/-- The `switch` block of `get_raw_coverage_information` (lines 2156 to 2165):
exchange `chrA/posA/cipos95A` with `chrB/posB/cipos95B` and `contig` with
`contig2`. -/
def switch_sides (r : CallRecord) : CallRecord :=
  { r with chrA := r.chrB, posA := r.posB, cipos95A := r.cipos95B,
           chrB := r.chrA, posB := r.posA, cipos95B := r.cipos95A,
           contig2 := r.contig, contig := r.contig2 }

/-- The cross-chromosome svlen sentinel of `get_raw_coverage_information`
(lines 2195 to 2196), applied after the optional switch. -/
def annotate_cross_svlen (r : CallRecord) : CallRecord :=
  if r.chrA ≠ r.chrB then { r with svlen := 1000000 } else r

/-! The extended-mode evidence aggregator `extended_attrs`. The aggregate `r`
is a Python dict, so it is embedded as an association list with lookup raising
`KeyError` on a missing key, exactly as CPython does. -/

/-- A value stored in the aggregate dict: an int, a float, or a list of
floats. -/
inductive PyVal where
  | vi : Int → PyVal
  | vq : ℚ → PyVal
  | vlist : List ℚ → PyVal
deriving Repr, DecidableEq

/-- A Python dict with string keys. -/
abbrev Dict := List (String × PyVal)

/-- `d[k]`: raises `KeyError` when the key is absent. -/
def dget (d : Dict) (k : String) : Except String PyVal :=
  match d.find? (fun p => p.1 == k) with
  | some p => .ok p.2
  | none => .error ("KeyError: " ++ k)

/-- `d[k] = v`: update in place, or add the key at the end. -/
def dset (d : Dict) (k : String) (v : PyVal) : Dict :=
  if d.any (fun p => p.1 == k) then
    d.map (fun p => if p.1 == k then (k, v) else p)
  else d ++ [(k, v)]

/-- `d[k].append(x)` on a list-valued entry. -/
def dappend (d : Dict) (k : String) (x : ℚ) : Except String Dict := do
  match ← dget d k with
  | .vlist l => pure (dset d k (.vlist (l ++ [x])))
  | _ => throw "TypeError"

/-- `d[k] += n` on an int-valued entry. -/
def dincr (d : Dict) (k : String) (n : Int) : Except String Dict := do
  match ← dget d k with
  | .vi m => pure (dset d k (.vi (m + n)))
  | _ => throw "TypeError"

/-- Int-valued lookup. -/
def dgetInt (d : Dict) (k : String) : Except String Int := do
  match ← dget d k with
  | .vi n => pure n
  | _ => throw "TypeError"

/-- The fields of a parsed alignment record consumed by the aggregator.
`tagSAcount` is the number of semicolons in the `SA` tag when present. -/
structure PyRead where
  qname : String
  flag : Nat
  mapq : Int
  cigartuples : List (Int × Int)
  tagDP : Option ℚ := none
  tagDN : Option ℚ := none
  tagDA : Option ℚ := none
  tagNM : Option ℚ := none
  tagAS : Option ℚ := none
  tagSAcount : Option Int := none
deriving Repr, DecidableEq, Inhabited

/-- `n_aligned_bases(ct)`: totals of aligned bases, large gaps (length at
least 30) and small-gap count over the cigar. -/
def n_aligned_bases (ct : List (Int × Int)) : ℚ × ℚ × ℚ :=
  let t := ct.foldl (fun (st : Int × Int × Int) p =>
      if p.1 = 0 then (st.1 + p.2, st.2.1, st.2.2)
      else if p.1 = 1 ∨ p.1 = 2 then
        if p.2 ≥ 30 then (st.1, st.2.1 + p.2, st.2.2)
        else (st.1, st.2.1, st.2.2 + 1)
      else st) (0, 0, 0)
  ((t.1 : ℚ), (t.2.1 : ℚ), (t.2.2 : ℚ))

/-- Loop state of `extended_attrs`: the aggregate dict and the `paired_end`
and `seen` template-name sets. -/
structure ExtSt where
  r : Dict
  paired_end : List String
  seen : List String

/-- One iteration of the `reads1`/`reads2` loop of `extended_attrs`
(lines 92 to 157 of `call_component.pyx`). -/
def ext_read_step (is_insertion : Bool) (st : ExtSt) (a : PyRead) :
    Except String ExtSt := do
  let mut r := st.r
  let mut paired_end := st.paired_end
  let mut seen := st.seen
  let qname := a.qname
  if qname ∉ seen then  -- add these once for each template
    match a.tagDP with
    | some dp => r ← dappend r "DP" dp
    | none => pure ()
    match a.tagDN with
    | some dn => r ← dappend r "DN" dn
    | none => pure ()
    seen := seen ++ [qname]
  let mut pe_support : Int := 0
  let flag := a.flag
  if flag &&& 2 ≠ 0 then
    r ← dincr r "NP" 1
  let has_sa := a.tagSAcount.isSome
  if has_sa then
    r ← dappend r "n_sa" ((a.tagSAcount.getD 0 : Int) : ℚ)
  let nb := n_aligned_bases a.cigartuples
  let a_bases := nb.1
  let large_gaps := nb.2.1
  let n_small_gaps := nb.2.2
  -- the initial dict of extended_attrs carries no "n_gaps" key, so this
  -- lookup raises KeyError in the source
  r ← dappend r "n_gaps" (n_small_gaps / a_bases)
  if flag &&& 256 = 0 then  -- primary reads
    r ← dappend r "MAPQpri" (a.mapq : ℚ)
    if qname ∈ paired_end then  -- two primary reads from the same pair
      r ← dincr r "pe" 1
      pe_support := 1
    else
      paired_end := paired_end ++ [qname]
    -- special case: insertion inferred between two primary alignments
    if pe_support = 0 ∧ is_insertion then
      if (has_sa ∧ flag &&& 2 ≠ 0) ∨ flag &&& 8 ≠ 0 then
        r ← dincr r "pe" 1
    match a.tagDA with
    | some da => r ← dappend r "DApri" da
    | none => pure ()
    match a.tagNM with
    | some nm =>
      if a_bases ≠ 0 then
        r ← dappend r "NMpri" (nm / a_bases)
        r ← dappend r "NMbase" ((nm - large_gaps) / a_bases)
      else
        r ← dappend r "NMpri" 0
    | none => pure ()
  else if flag &&& 2304 ≠ 0 then  -- supplementary
    r ← dincr r "supp" 1
    r ← dappend r "MAPQsupp" (a.mapq : ℚ)
    match a.tagDA with
    | some da => r ← dappend r "DAsupp" da
    | none => pure ()
    match a.tagNM with
    | some nm =>
      if a_bases ≠ 0 then
        r ← dappend r "NMsupp" (nm / a_bases)
      else
        r ← dappend r "NMsupp" 0
    | none => pure ()
    match a.tagAS with
    | some as_val => r ← dappend r "maxASsupp" as_val
    | none => pure ()
  if flag &&& 16 ≠ 0 then
    r ← dincr r "minus" 1
  else
    r ← dincr r "plus" 1
  let ct := a.cigartuples
  if (ct.headD (0, 0)).1 = 4 ∨ (ct.getLastD (0, 0)).1 = 4 then
    r ← dincr r "sc" 1
  pure ⟨r, paired_end, seen⟩

/-- One iteration of the `spanning` loop of `extended_attrs`
(lines 159 to 211 of `call_component.pyx`). -/
def ext_span_step (st : ExtSt) (a : PyRead) : Except String ExtSt := do
  let mut r := st.r
  let mut paired_end := st.paired_end
  let mut seen := st.seen
  let qname := a.qname
  if qname ∉ seen then
    match a.tagDP with
    | some dp => r ← dappend r "DP" dp
    | none => pure ()
    match a.tagDN with
    | some dn => r ← dappend r "DN" dn
    | none => pure ()
    seen := seen ++ [qname]
  let flag := a.flag
  if flag &&& 2 ≠ 0 then
    r ← dincr r "NP" 1
  if a.tagSAcount.isSome then
    r ← dappend r "n_sa" ((a.tagSAcount.getD 0 : Int) : ℚ)
  let nb := n_aligned_bases a.cigartuples
  let a_bases := nb.1
  let large_gaps := nb.2.1
  let n_small_gaps := nb.2.2
  r ← dappend r "n_gaps" (n_small_gaps / a_bases)
  if flag &&& 2304 ≠ 0 then  -- supplementary
    r ← dincr r "supp" 2
    r ← dappend r "MAPQsupp" (a.mapq : ℚ)
    match a.tagDA with
    | some da => r ← dappend r "DAsupp" da
    | none => pure ()
    match a.tagNM with
    | some nm =>
      if a_bases ≠ 0 then
        r ← dappend r "NMsupp" (nm / a_bases)
      else
        r ← dappend r "NMsupp" 0
    | none => pure ()
    match a.tagAS with
    | some as_val => r ← dappend r "maxASsupp" as_val
    | none => pure ()
  else  -- primary reads
    r ← dappend r "MAPQpri" (a.mapq : ℚ)
    if qname ∈ paired_end then
      r ← dincr r "pe" 2
    else
      paired_end := paired_end ++ [qname]
    match a.tagDA with
    | some da => r ← dappend r "DApri" da
    | none => pure ()
    match a.tagNM with
    | some nm =>
      if a_bases ≠ 0 then
        r ← dappend r "NMpri" (nm / a_bases)
        r ← dappend r "NMbase" ((nm - large_gaps) / a_bases)
      else
        r ← dappend r "NMpri" 0
    | none => pure ()
  if flag &&& 16 ≠ 0 then
    r ← dincr r "minus" 1
  else
    r ← dincr r "plus" 1
  pure ⟨r, paired_end, seen⟩

/-- Mean-reduce a list-valued entry (`* 100` for the rate fields), replacing
empty lists by the int 0. -/
def reduce_mean (scale100 : Bool) (r : Dict) (k : String) : Except String Dict := do
  match ← dget r k with
  | .vlist l =>
      if l.length > 0 then
        pure (dset r k (.vq (if scale100 then meanL l * 100 else meanL l)))
      else
        pure (dset r k (.vi 0))
  | _ => throw "TypeError"

/-- `extended_attrs(reads1, reads2, spanning, min_support, svtype)`:
either the final aggregate dict (the empty dict when below the support
minimum), or the uncaught exception. -/
def extended_attrs (reads1 reads2 spanning : List PyRead) (min_support : Int)
    (svtype : String) : Except String Dict := do
  let r0 : Dict :=
    [("pe", .vi 0), ("supp", .vi 0), ("sc", .vi 0), ("DP", .vlist []),
     ("DApri", .vlist []), ("DN", .vlist []), ("NMpri", .vlist []), ("NP", .vi 0),
     ("DAsupp", .vlist []), ("NMsupp", .vlist []), ("maxASsupp", .vlist []),
     ("MAPQpri", .vlist []), ("MAPQsupp", .vlist []), ("plus", .vi 0),
     ("minus", .vi 0), ("spanning", .vi spanning.length), ("NMbase", .vlist []),
     ("n_sa", .vlist [])]
  let is_insertion := svtype = "INS"
  let mut st : ExtSt := ⟨r0, [], []⟩
  for a in reads1 ++ reads2 do
    st ← ext_read_step is_insertion st a
  for a in spanning do
    st ← ext_span_step st a
  let mut r := st.r
  let pe ← dgetInt r "pe"
  let supp ← dgetInt r "supp"
  if pe + supp < min_support then
    return []
  for k in ["NMpri", "NMsupp", "NMbase", "n_gaps"] do
    r ← reduce_mean true r k
  for k in ["DP", "DApri", "DN", "DAsupp", "MAPQpri", "MAPQsupp", "n_sa"] do
    r ← reduce_mean false r k
  match ← dget r "maxASsupp" with
  | .vlist l =>
      if l.length > 0 then
        r := dset r "maxASsupp" (.vi (truncQ (l.foldl max (l.headD 0))))
      else
        r := dset r "maxASsupp" (.vi 0)
  | _ => throw "TypeError"
  pure r

/-! Concrete items used to exercise the definitions. -/

/-- A lone DEL hypothesis whose side-A break (200) is imprecise and whose
side-B break (100) is precise, with `median_A ≥ median_B`. -/
def delItem : AlignmentItem := { chrA := 0, chrB := 0, breakA := 200, breakB := 100 }

/-- An intra-chromosomal same-read item routed to the `B is first`,
equal-strand, non-overlapping branch of `same_read` with no clips at all. -/
def unclippedItem : AlignmentItem :=
  { chrA := 0, chrB := 0, priA := true, priB := false, rA := 1, rB := 1,
    posA := 100, endA := 150, posB := 10, endB := 50,
    strandA := 3, strandB := 3,
    left_clipA := false, right_clipA := false, left_clipB := false, right_clipB := false,
    a_qstart := 0, a_qend := 50, b_qstart := 60, b_qend := 100,
    read_overlaps_mate := false }

/-- A deletion-shaped different-read pair (A first, strandA forward,
strandB reverse). -/
def delShapeItem : AlignmentItem :=
  { chrA := 0, chrB := 0, priA := true, priB := false, rA := 1, rB := 2,
    posA := 10, endA := 50, posB := 100, endB := 150,
    strandA := 3, strandB := 5 }

/-- A clipped DEL-shaped two-primary pair. -/
def clippedDelItem : AlignmentItem :=
  { chrA := 0, chrB := 0, priA := true, priB := true, rA := 1, rB := 2,
    posA := 10, endA := 50, posB := 100, endB := 150,
    strandA := 3, strandB := 5, right_clipA := true, left_clipB := true }

/-- A same-read, same-strand, reference-overlapping split pair whose query
coordinates also overlap (query gap -10), yielding an INS hypothesis with a
negative recorded query gap. -/
def negGapItem : AlignmentItem :=
  { chrA := 0, chrB := 0, priA := true, priB := false, rA := 1, rB := 1,
    posA := 100, endA := 200, posB := 150, endB := 260,
    strandA := 3, strandB := 3,
    left_clipA := false, right_clipA := false, left_clipB := true, right_clipB := false,
    a_qstart := 0, a_qend := 120, b_qstart := 110, b_qend := 250,
    read_overlaps_mate := false }

/-! Claim theorems. -/

/-- C1 counterexample: an edge-derived INS cluster with `pe = 2`, `supp = 0`,
`sc = 10`, `spanning = 1` and `min_support = 8` satisfies the claim's
exception conditions (`supp + spanning > 0` and
`supp + sc + spanning > min_support`) while its aggregate
`pe + supp + 2 * spanning` is below `min_support`, yet `one_edge` drops it:
its filter has no insertion exception, so the claim's "still produces a
call" fails on the edge path. -/
theorem C1_counterexample :
    (0 : ℕ) + 1 > 0 ∧ (0 : ℕ) + 10 + 1 > 8 ∧ (2 : ℕ) + 0 + 2 * 1 < 8 ∧
    one_edge_drops 2 0 1 8 = true := by decide

/-- C1 amended: a singleton-derived cluster whose aggregate
`pe + supp + 2 * spanning` is below `min_support` yields no call, except an
INS cluster with `supp + spanning > 0` and
`supp + sc + spanning > min_support`, which is kept; an edge-derived cluster
under the same aggregate bound always yields no call (its filter compares
`pe + supp + spanning` and has no INS exception). -/
theorem C1_amended (pe supp sc spanning m : ℕ) (svtype : String) :
    (pe + supp + 2 * spanning < m →
      (single_drops pe supp sc spanning m svtype = false ↔
        (svtype = "INS" ∧ supp + spanning > 0 ∧ supp + sc + spanning > m))) ∧
    (pe + supp + 2 * spanning < m → one_edge_drops pe supp spanning m = true) := by
  constructor
  · intro hlt
    unfold single_drops
    rw [if_pos hlt]
    by_cases hins : svtype = "INS"
    · simp [hins]
      omega
    · simp [hins]
  · intro hlt
    unfold one_edge_drops
    have h : pe + supp + spanning < m := by omega
    simp [h]

/-- C1 witness: the amended statement evaluated at a concrete
singleton-derived INS cluster below threshold but rescued by the exception,
and at the corresponding edge filter. -/
theorem C1_amended_witness :
    ((0 : ℕ) + 1 + 2 * 0 < 3) ∧
    (single_drops 0 1 5 0 3 "INS" = false ↔
      ("INS" = "INS" ∧ (1 : ℕ) + 0 > 0 ∧ (1 : ℕ) + 5 + 0 > 3)) ∧
    one_edge_drops 0 1 0 3 = true :=
  ⟨by decide, (C1_amended 0 1 5 0 3 "INS").1 (by decide),
    (C1_amended 0 1 5 0 3 "INS").2 (by decide)⟩

/-- C2: for svtype DEL with `median_A ≥ median_B`, `make_call` returns as
`preciseA` the flag computed by the sweep over the side-B positions and as
`preciseB` the flag from the side-A sweep (lines 1632 and 1633 of the
source cross-assign them). Here the side-A sweep is imprecise and the side-B
sweep precise, yet the call reports `preciseA = true` and
`preciseB = false`. -/
theorem C2_precise_flags_swapped :
    (make_call [delItem] [] [100] "DEL" "3to5" 10 2).preciseA = true ∧
    (make_call [delItem] [] [100] "DEL" "3to5" 10 2).preciseB = false ∧
    (break_ops [200] [] (-12) (medianQ [200])).is_precise = false ∧
    (break_ops [100] [100] 12 (medianQ [100])).is_precise = true := by decide

/-- C3: `extended_attrs` raises `KeyError` for the key `n_gaps` on any
non-empty input (its initial dict omits the `n_gaps` entry that the per-read
loop appends to), instead of returning a dictionary. -/
theorem C3_extended_attrs_keyerror :
    extended_attrs [{ qname := "t1", flag := 0, mapq := 60, cigartuples := [(0, 100)] }]
        [] [] 3 "DEL" = Except.error "KeyError: n_gaps" := by
  rfl

/-- C10: the switch block of the regional-annotation step exchanges exactly
`chrA/posA/cipos95A` with `chrB/posB/cipos95B` and `contig` with `contig2`;
every other field, in particular `preciseA`, `preciseB` and `svlen`, is
unchanged. -/
theorem C10_switch_frame (r : CallRecord) :
    (switch_sides r).chrA = r.chrB ∧ (switch_sides r).posA = r.posB ∧
    (switch_sides r).cipos95A = r.cipos95B ∧ (switch_sides r).chrB = r.chrA ∧
    (switch_sides r).posB = r.posA ∧ (switch_sides r).cipos95B = r.cipos95A ∧
    (switch_sides r).contig = r.contig2 ∧ (switch_sides r).contig2 = r.contig ∧
    (switch_sides r).preciseA = r.preciseA ∧ (switch_sides r).preciseB = r.preciseB ∧
    (switch_sides r).svlen = r.svlen ∧ (switch_sides r).svtype = r.svtype ∧
    (switch_sides r).join_type = r.join_type ∧ (switch_sides r).pe = r.pe ∧
    (switch_sides r).supp = r.supp ∧ (switch_sides r).spanning = r.spanning :=
  ⟨rfl, rfl, rfl, rfl, rfl, rfl, rfl, rfl, rfl, rfl, rfl, rfl, rfl, rfl, rfl, rfl⟩

/-- The deletion-shaped branches of `different_read` assign INS with join
type 3to5. -/
theorem different_read_del_shape (v : AlignmentItem)
    (hcase :
      ((v.posA < v.posB ∨ (v.posA = v.posB ∧ v.endA ≤ v.endB)) ∧ v.strandA = 3 ∧ v.strandB = 5) ∨
      (¬(v.posA < v.posB ∨ (v.posA = v.posB ∧ v.endA ≤ v.endB)) ∧ v.strandA = 5 ∧ v.strandB = 3)) :
    (different_read v).svtype = "INS" ∧ (different_read v).join_type = "3to5" := by
  rcases hcase with ⟨h1, h2, h3⟩ | ⟨h1, h2, h3⟩ <;>
    simp [different_read, h1, h2, h3]

/-- C4: in the different-physical-read regime (same chromosome, not both
primary, `rA ≠ rB`), an opposite-strand pair in the deletion-shaped
orientation (A first with strandA 3 and strandB 5, or B first with strandA 5
and strandB 3) is classified as svtype INS, not DEL, with join type 3to5. -/
theorem C4_different_read_del_shape_is_ins (v : AlignmentItem)
    (hchr : v.chrA = v.chrB) (hpri : ¬(v.priA = true ∧ v.priB = true))
    (hr : v.rA ≠ v.rB)
    (hcase :
      ((v.posA < v.posB ∨ (v.posA = v.posB ∧ v.endA ≤ v.endB)) ∧ v.strandA = 3 ∧ v.strandB = 5) ∨
      (¬(v.posA < v.posB ∨ (v.posA = v.posB ∧ v.endA ≤ v.endB)) ∧ v.strandA = 5 ∧ v.strandB = 3)) :
    (classify_d v).svtype = "INS" ∧ (classify_d v).join_type = "3to5" := by
  simp only [classify_d]
  split_ifs with hc hp
  · exact absurd hchr (by simpa using hc)
  · exact absurd (by simpa using hp) hpri
  · exact different_read_del_shape _ (by simpa using hcase)

/-- C4 witness: a concrete A-first deletion-shaped different-read pair. -/
theorem C4_witness :
    (classify_d delShapeItem).svtype = "INS" ∧
    (classify_d delShapeItem).join_type = "3to5" :=
  C4_different_read_del_shape_is_ins delShapeItem (by decide) (by decide) (by decide)
    (Or.inl ⟨Or.inl (by decide), by decide, by decide⟩)

set_option maxHeartbeats 2000000 in
/-- Every branch of `two_primary` places `breakA` at `posA` or `endA` and
`breakB` at `posB` or `endB` (the fall-through for strand codes outside 3
and 5 is excluded by the hypothesis). -/
theorem two_primary_breaks (v : AlignmentItem) (hsA : v.strandA = 3 ∨ v.strandA = 5) :
    ((two_primary v).breakA = v.posA ∨ (two_primary v).breakA = v.endA) ∧
    ((two_primary v).breakB = v.posB ∨ (two_primary v).breakB = v.endB) := by
  rcases hsA with hA | hA <;>
    · simp only [two_primary]
      split_ifs <;> simp_all

set_option maxHeartbeats 2000000 in
/-- Every branch of `same_read` places `breakA` at `posA` or `endA` and
`breakB` at `posB` or `endB`. -/
theorem same_read_breaks (v : AlignmentItem) :
    ((same_read v).breakA = v.posA ∨ (same_read v).breakA = v.endA) ∧
    ((same_read v).breakB = v.posB ∨ (same_read v).breakB = v.endB) := by
  simp only [same_read]
  split_ifs <;> simp

set_option maxHeartbeats 2000000 in
/-- Every branch of `different_read` places `breakA` at `posA` or `endA` and
`breakB` at `posB` or `endB` (the fall-throughs for strand codes outside 3
and 5 are excluded by the hypotheses). -/
theorem different_read_breaks (v : AlignmentItem)
    (hsA : v.strandA = 3 ∨ v.strandA = 5) (hsB : v.strandB = 3 ∨ v.strandB = 5) :
    ((different_read v).breakA = v.posA ∨ (different_read v).breakA = v.endA) ∧
    ((different_read v).breakB = v.posB ∨ (different_read v).breakB = v.endB) := by
  rcases hsA with hA | hA <;> rcases hsB with hB | hB <;>
    · simp [different_read, hA, hB]
      split_ifs <;> simp_all

/-- C5 counterexample: an intra-chromosomal same-read item with no clips at
all reaches the B-first, equal-strand, non-overlapping branch of
`same_read`, which sets `breakA = posA` with `breakA_precise = 1` even
though the chosen side carries no left clip — refuting the claim that the
precision flag is set only when the chosen side is clipped. -/
theorem C5_counterexample :
    (classify_d unclippedItem).breakA = unclippedItem.posA ∧
    (classify_d unclippedItem).breakA_precise = true ∧
    unclippedItem.left_clipA = false := by decide

/-- C5 amended: for every intra-chromosomal classification with strand codes
in 3 or 5, `breakA` is either `posA` or `endA` and `breakB` is either `posB`
or `endB`; the precision flags, however, do not always track the chosen
side's clip (several branches set them unconditionally or test the opposite
side's clip). -/
theorem C5_amended (v : AlignmentItem) (hchr : v.chrA = v.chrB)
    (hsA : v.strandA = 3 ∨ v.strandA = 5) (hsB : v.strandB = 3 ∨ v.strandB = 5) :
    ((classify_d v).breakA = v.posA ∨ (classify_d v).breakA = v.endA) ∧
    ((classify_d v).breakB = v.posB ∨ (classify_d v).breakB = v.endB) := by
  simp only [classify_d]
  split_ifs with hc hp hrr
  · exact absurd hchr (by simpa using hc)
  · exact two_primary_breaks _ (by simpa using hsA)
  · exact same_read_breaks _
  · exact different_read_breaks _ (by simpa using hsA) (by simpa using hsB)

/-- C5 witness: the amended statement at a concrete clipped DEL-shaped
two-primary pair. -/
theorem C5_amended_witness :
    clippedDelItem.chrA = clippedDelItem.chrB ∧
    ((classify_d clippedDelItem).breakA = clippedDelItem.posA ∨
      (classify_d clippedDelItem).breakA = clippedDelItem.endA) :=
  ⟨rfl, (C5_amended clippedDelItem (by decide) (Or.inl (by decide))
    (Or.inr (by decide))).1⟩

set_option maxHeartbeats 4000000 in
/-- The nested (reference-overlapping, equal-strand) branches of `same_read`
resolve INS versus DUP by comparing the reference gap between the chosen
breakpoints with the query gap. -/
theorem same_read_nested (v : AlignmentItem) (hstrand : v.strandA = v.strandB)
    (hov : is_overlapping v.posA v.endA v.posB v.endB = true) :
    (same_read v).join_type = "5to3" ∧
    (let qgap := if v.posA < v.posB ∨ (v.posA = v.posB ∧ v.endA ≤ v.endB)
                 then v.b_qstart - v.a_qend else v.b_qend - v.a_qstart
     if (same_read v).breakB - (same_read v).breakA < qgap then
       (same_read v).svtype = "INS" ∧ (same_read v).query_gap = qgap
     else
       (same_read v).svtype = "DUP" ∧ (same_read v).query_gap = v.query_gap) := by
  simp only [same_read, hstrand, hov]
  split_ifs <;> simp_all

/-- Dispatch equation of `classify_d` for the same-read regime. -/
theorem classify_d_same_read (v : AlignmentItem) (hchr : v.chrA = v.chrB)
    (hpri : ¬(v.priA = true ∧ v.priB = true)) (hr : v.rA = v.rB) :
    classify_d v = same_read { v with breakA_precise := false, breakB_precise := false } := by
  simp only [classify_d]
  split_ifs with hc hp
  · exact absurd hchr (by simpa using hc)
  · exact absurd (by simpa using hp) hpri
  · rfl

/-- C6: a same-read primary plus supplementary pair (same chromosome) with
equal strands and reference-overlapping alignments is resolved by the
query-gap versus reference-gap tie-break: when the reference gap between the
chosen breakpoints is strictly smaller than the query gap the item is
classified INS with the query gap recorded, otherwise DUP with the query gap
left untouched; the join type is 5to3 either way. -/
theorem C6_same_read_nested_ins_dup (v : AlignmentItem)
    (hchr : v.chrA = v.chrB) (hpri : ¬(v.priA = true ∧ v.priB = true))
    (hr : v.rA = v.rB) (hstrand : v.strandA = v.strandB)
    (hov : is_overlapping v.posA v.endA v.posB v.endB = true) :
    (classify_d v).join_type = "5to3" ∧
    (let qgap := if v.posA < v.posB ∨ (v.posA = v.posB ∧ v.endA ≤ v.endB)
                 then v.b_qstart - v.a_qend else v.b_qend - v.a_qstart
     if (classify_d v).breakB - (classify_d v).breakA < qgap then
       (classify_d v).svtype = "INS" ∧ (classify_d v).query_gap = qgap
     else
       (classify_d v).svtype = "DUP" ∧ (classify_d v).query_gap = v.query_gap) := by
  rw [classify_d_same_read v hchr hpri hr]
  exact same_read_nested _ hstrand hov

/-- C6 witness: the concrete overlapping split pair with query gap -10 is
classified INS with that gap recorded. -/
theorem C6_witness :
    (classify_d negGapItem).join_type = "5to3" ∧
    (let qgap := if negGapItem.posA < negGapItem.posB ∨
                    (negGapItem.posA = negGapItem.posB ∧ negGapItem.endA ≤ negGapItem.endB)
                 then negGapItem.b_qstart - negGapItem.a_qend
                 else negGapItem.b_qend - negGapItem.a_qstart
     if (classify_d negGapItem).breakB - (classify_d negGapItem).breakA < qgap then
       (classify_d negGapItem).svtype = "INS" ∧ (classify_d negGapItem).query_gap = qgap
     else
       (classify_d negGapItem).svtype = "DUP" ∧
       (classify_d negGapItem).query_gap = negGapItem.query_gap) :=
  C6_same_read_nested_ins_dup negGapItem (by decide) (by decide) (by decide)
    (by decide) (by decide)

/-- C7 counterexample: the classified `negGapItem` is an INS hypothesis with
recorded query gap -10, and `make_call` on it returns `svlen = -10 < 0`,
refuting the claim that every consensus call has nonnegative svlen. -/
theorem C7_counterexample :
    (classify_d negGapItem).svtype = "INS" ∧
    (classify_d negGapItem).query_gap = -10 ∧
    (make_call [classify_d negGapItem] [] [150] "INS" "5to3" 10 2).svlen = -10 :=
  of_decide_eq_true (by with_unfolding_all rfl)

/-- C7 amended: for same-chromosome non-INS calls `make_call` returns
`svlen = |posB - posA| ≥ 0`; for cross-chromosome calls it returns
`svlen = 0`, and the regional-annotation step then sets svlen to the
sentinel 1000000; INS calls, however, take svlen from the mean recorded
query gap, which can be negative. -/
theorem C7_amended (informative : List AlignmentItem) (pa pb : List Int)
    (svtype jointype : String) (isz istd : Int) :
    ((informative.headD default).chrA = (informative.headD default).chrB →
      svtype ≠ "INS" →
      (make_call informative pa pb svtype jointype isz istd).svlen =
        |(make_call informative pa pb svtype jointype isz istd).posB -
          (make_call informative pa pb svtype jointype isz istd).posA| ∧
      0 ≤ (make_call informative pa pb svtype jointype isz istd).svlen) ∧
    ((informative.headD default).chrA ≠ (informative.headD default).chrB →
      (make_call informative pa pb svtype jointype isz istd).svlen = 0) ∧
    (∀ r : CallRecord, r.chrA ≠ r.chrB → (annotate_cross_svlen r).svlen = 1000000) := by
  refine ⟨?_, ?_, ?_⟩
  · intro hchr hins
    simp only [make_call]
    rw [if_pos hchr, if_neg hins]
    exact ⟨rfl, abs_nonneg _⟩
  · intro hchr
    simp only [make_call]
    rw [if_neg hchr]
  · intro r hr
    simp only [annotate_cross_svlen]
    rw [if_pos hr]

/-- A cross-chromosome call record. -/
def traRecord : CallRecord :=
  { chrA := 3, chrB := 7, posA := 0, posB := 0, cipos95A := 0, cipos95B := 0,
    preciseA := false, preciseB := false, svtype := "TRA", join_type := "3to5",
    svlen := 0, contig := none, contig2 := none, pe := 0, supp := 0, spanning := 0 }

/-- C7 witness: the amended statement at a concrete same-chromosome DEL call
and at a concrete cross-chromosome record. -/
theorem C7_amended_witness :
    (delItem.chrA = delItem.chrB ∧ "DEL" ≠ "INS" ∧
      (make_call [delItem] [] [100] "DEL" "3to5" 10 2).svlen =
        |(make_call [delItem] [] [100] "DEL" "3to5" 10 2).posB -
          (make_call [delItem] [] [100] "DEL" "3to5" 10 2).posA|) ∧
    (traRecord.chrA ≠ traRecord.chrB →
      (annotate_cross_svlen traRecord).svlen = 1000000) :=
  ⟨⟨rfl, by decide,
      ((C7_amended [delItem] [] [100] "DEL" "3to5" 10 2).1 rfl (by decide)).1⟩,
    (C7_amended [delItem] [] [100] "DEL" "3to5" 10 2).2.2 traRecord⟩

/-- C8 counterexample: on a single observed position with no precise
observations and limit 1 the sweep is not precise, yet `cipos95 = 0` because
the median coincides with the 97.5th percentile — refuting the claimed
"exactly when" (if and only if) characterisation of `cipos95 = 0`. -/
theorem C8_counterexample :
    ([5] : List Int) ≠ [] ∧ (1 : Int) ≠ 0 ∧
    (break_ops [5] [] 1 (medianQ [5])).cipos95 = 0 ∧
    ¬((break_ops [5] [] 1 (medianQ [5])).is_precise = true ∧
      ([] : List Int).length > 1) :=
  of_decide_eq_true (by with_unfolding_all rfl)

/-- C8 amended: for a non-empty position list and non-zero limit,
`break_ops` returns `cipos95 = 0` when the result is precise with more than
one precise observation, and otherwise returns the truncated absolute
distance from the median of all positions to their truncated 97.5th
percentile (which may itself be 0, so the converse of the first clause does
not hold). -/
theorem C8_amended (positions precise : List Int) (limit : Int)
    (hpos : positions ≠ []) (hlim : limit ≠ 0) :
    ((break_ops positions precise limit (medianQ positions)).is_precise = true ∧
        precise.length > 1 →
      (break_ops positions precise limit (medianQ positions)).cipos95 = 0) ∧
    (¬((break_ops positions precise limit (medianQ positions)).is_precise = true ∧
        precise.length > 1) →
      (break_ops positions precise limit (medianQ positions)).cipos95 =
        truncQ |((truncQ (percentile975 positions) : ℚ)) - medianQ positions|) := by
  constructor <;> intro h <;> simp only [break_ops] at h ⊢
  · rw [if_pos h]
  · rw [if_neg h]

/-- C8 witness: the amended statement at a single position with no precise
observations. -/
theorem C8_amended_witness :
    ([5] : List Int) ≠ [] ∧ (1 : Int) ≠ 0 ∧
    (¬((break_ops [5] [] 1 (medianQ [5])).is_precise = true ∧
        ([] : List Int).length > 1) →
      (break_ops [5] [] 1 (medianQ [5])).cipos95 =
        truncQ |((truncQ (percentile975 [5]) : ℚ)) - medianQ [5]|) :=
  ⟨by decide, by decide, (C8_amended [5] [] 1 (by decide) (by decide)).2⟩

set_option maxHeartbeats 4000000 in
/-- After resolution, `msc_resolve` never leaves both clip flags of the same
alignment set. -/
theorem msc_resolve_exclusive (aflag bflag : Nat) (a_ct b_ct : List (Int × Int))
    (lA rA lB rB : Bool) :
    ¬((msc_resolve aflag bflag a_ct b_ct lA rA lB rB).1 = true ∧
      (msc_resolve aflag bflag a_ct b_ct lA rA lB rB).2.1 = true) ∧
    ¬((msc_resolve aflag bflag a_ct b_ct lA rA lB rB).2.2.1 = true ∧
      (msc_resolve aflag bflag a_ct b_ct lA rA lB rB).2.2.2 = true) := by
  simp only [msc_resolve]
  split_ifs <;> simp_all

/-- C9: `mask_soft_clips` is a total function of its four inputs and never
returns both the left-clip and the right-clip flag true for the same
alignment. -/
theorem C9_mask_soft_clips_exclusive (aflag bflag : Nat) (a_ct b_ct : List (Int × Int))
    (ha : a_ct ≠ []) (hb : b_ct ≠ []) :
    ¬((mask_soft_clips aflag bflag a_ct b_ct).1 = true ∧
      (mask_soft_clips aflag bflag a_ct b_ct).2.1 = true) ∧
    ¬((mask_soft_clips aflag bflag a_ct b_ct).2.2.1 = true ∧
      (mask_soft_clips aflag bflag a_ct b_ct).2.2.2 = true) := by
  simp only [mask_soft_clips]
  exact msc_resolve_exclusive aflag bflag a_ct b_ct _ _ _ _

/-- C9 witness: a doubly-clipped alignment A paired with an unclipped B on
the same read resolves to a single clip side. -/
theorem C9_witness :
    ([((4 : Int), (10 : Int)), (0, 50), (4, 20)] : List (Int × Int)) ≠ [] ∧
    ([((0 : Int), (30 : Int))] : List (Int × Int)) ≠ [] ∧
    ¬((mask_soft_clips 0 0 [(4, 10), (0, 50), (4, 20)] [(0, 30)]).1 = true ∧
      (mask_soft_clips 0 0 [(4, 10), (0, 50), (4, 20)] [(0, 30)]).2.1 = true) :=
  ⟨by decide, by decide,
    (C9_mask_soft_clips_exclusive 0 0 [(4, 10), (0, 50), (4, 20)] [(0, 30)]
      (by decide) (by decide)).1⟩

end CallComponent
